import Mathlib

/-!
Verification development for the telefax label-printer bot (`bot.py`).

The Python source is shallowly embedded below: pure helpers become Lean
functions, the regular-expression search in `parse_copies` becomes an
explicit left-to-right scan over the character list, the handlers become
trace-producing functions over explicit configuration/message/environment
records, and the temporary-file lifecycle of the print dispatcher becomes
explicit state passing.  Character classes of Python's `re` module
(`\d`, `\w`, `\s`) and `str.isdigit` / `str.lower` are modelled over
ASCII, which covers every input the claims mention.
-/

/-! ## Copy-count parser (`parse_copies`, bot.py lines 104-118)

The source lowercases the caption and runs
`re.search(r'(?:x|\bcopies\s*=\s*)(\d+)', caption)`.
`re.search` returns the leftmost position at which one of the two
alternatives (tried in order: `x` then `\bcopies\s*=\s*`) followed by a
maximal nonempty digit run matches.  The two alternatives start with the
distinct literals `x` and `c`, so at a fixed position at most one can
match and the engine's backtracking between them is irrelevant. -/

/-- ASCII model of the regex word class `\w` used by the boundary `\b`. -/
def isWordChar (c : Char) : Bool := c.isAlphanum || c = '_'

/-- ASCII model of the regex space class `\s`. -/
def isSpaceChar (c : Char) : Bool :=
  c = ' ' || c = '\t' || c = '\n' || c = '\r' || c = '\x0b' || c = '\x0c'

/-- Word boundary `\b` immediately before a word character, given the
previous character (`none` at the start of the string). -/
def atWordBoundary : Option Char → Bool
  | none => true
  | some p => !isWordChar p

/-- Value of a digit-character run, as `int()` computes it. -/
def digitsToNat (ds : List Char) : ℕ :=
  ds.foldl (fun n c => n * 10 + (c.toNat - 48)) 0

/-- Match the alternative `x(\d+)` at the current position: the literal
`x` followed by a maximal nonempty digit run (the capture group). -/
def matchXAt : List Char → Option (List Char)
  | 'x' :: rest =>
    let ds := rest.takeWhile Char.isDigit
    if ds.isEmpty then none else some ds
  | _ => none

/-- Match the alternative `copies\s*=\s*(\d+)` at the current position
(the `\b` in front is checked by the caller).  `\s*` is greedy and the
characters `\s`, `=`, `\d` are pairwise disjoint, so the greedy scan
needs no backtracking. -/
def matchCopiesAt : List Char → Option (List Char)
  | 'c' :: 'o' :: 'p' :: 'i' :: 'e' :: 's' :: rest =>
    match rest.dropWhile isSpaceChar with
    | '=' :: r2 =>
      let ds := (r2.dropWhile isSpaceChar).takeWhile Char.isDigit
      if ds.isEmpty then none else some ds
    | _ => none
  | _ => none

/-- Try both alternatives of `(?:x|\bcopies\s*=\s*)(\d+)` at one
position, in the engine's order. -/
def tryMatchAt (prev : Option Char) (l : List Char) : Option (List Char) :=
  match matchXAt l with
  | some ds => some ds
  | none => if atWordBoundary prev then matchCopiesAt l else none

/-- `re.search`: scan positions left to right, returning the capture
group of the leftmost match.  `prev` is the character before the current
position, needed for `\b`. -/
def searchFrom : Option Char → List Char → Option (List Char)
  | _, [] => none
  | prev, c :: rest =>
    match tryMatchAt prev (c :: rest) with
    | some ds => some ds
    | none => searchFrom (some c) rest

/-- `parse_copies` (bot.py lines 104-118): `None` and `""` are falsy and
yield 1; otherwise search the lowercased caption for the pattern and
clamp the captured number with `max(1, copies)`; no match yields 1.
(The `int()` call on a `\d+` capture cannot raise, so the
`except ValueError` branch is dead.) -/
def parse_copies (caption : Option String) : ℕ :=
  match caption with
  | none => 1
  | some s =>
    if s.isEmpty then 1
    else
      match searchFrom none (s.data.map Char.toLower) with
      | some ds => max 1 (digitsToNat ds)
      | none => 1

/-- First occurrence, scanning left to right, of the letter `x`
immediately followed by a nonempty digit run; returns that maximal digit
run.  This is the reading of the parser that claim C10 asserts; compare
with `searchFrom`, which also tries the `copies=` alternative at every
position. -/
def firstXDigits : List Char → Option (List Char)
  | [] => none
  | c :: rest =>
    match matchXAt (c :: rest) with
    | some ds => some ds
    | none => firstXDigits rest

/-- Whether the alternative `\bcopies\s*=\s*(\d+)` matches at some
position of the list (`prev` is the character before the first
position). -/
def hasCopiesAnywhere : Option Char → List Char → Bool
  | _, [] => false
  | prev, c :: rest =>
    (atWordBoundary prev && (matchCopiesAt (c :: rest)).isSome) || hasCopiesAnywhere (some c) rest

/-! ## Allow-list configuration (bot.py lines 25-26) and the
authorization gate shared by both handlers (lines 125 and 137) -/

/-- Python `str.split(',')` on the string's characters: split at every
comma, keeping empty fields, so the empty string yields `[[]]`. -/
def splitCommas : List Char → List (List Char)
  | [] => [[]]
  | ',' :: rest => [] :: splitCommas rest
  | c :: rest =>
    match splitCommas rest with
    | [] => [[c]]
    | f :: fs => (c :: f) :: fs

/-- ASCII model of Python `str.isdigit`: nonempty and every character a
digit. -/
def isDigitField (f : List Char) : Bool := !f.isEmpty && f.all Char.isDigit

/-- `ALLOWED_USER_IDS` (bot.py lines 25-26): split the environment
string on commas and keep the all-digit fields, converted to integers
by `int()`.  Note `"".split(',') == [""]` in Python, and `""` is not a
digit field, so an unset variable yields the empty list. -/
def parseAllowedUserIds (s : String) : List ℕ :=
  ((splitCommas s.data).filter isDigitField).map digitsToNat

/-- The condition `ALLOWED_USER_IDS and user.id not in ALLOWED_USER_IDS`
that guards both `start` (line 125) and `handle_image` (line 137): a
truthy (nonempty) list all of whose members differ from the sender. -/
def accessDenied (l : List ℕ) (uid : ℕ) : Bool :=
  !l.isEmpty && !(decide (uid ∈ l))

/-! ## Image normalizer (`resize_image`, bot.py lines 39-61) -/

def LABEL_WIDTH_INCHES : ℕ := 4
def LABEL_HEIGHT_INCHES : ℕ := 6
def IMAGE_DPI : ℕ := 300
def LABEL_WIDTH_PX : ℕ := LABEL_WIDTH_INCHES * IMAGE_DPI
def LABEL_HEIGHT_PX : ℕ := LABEL_HEIGHT_INCHES * IMAGE_DPI

/-- Modelled from the spec: rounding of a scaled axis to whole pixels by
the external resampling library, the nearer of floor and ceiling (floor
on ties) clamped to at least one pixel. -/
def roundAspect (q : ℚ) : ℕ :=
  max 1 (if q - (⌊q⌋ : ℚ) ≤ 1 / 2 then (⌊q⌋).toNat else (⌈q⌉).toNat)

/-- Modelled from the spec: the dimension contract of the external
`Image.thumbnail` call in `resize_image` (bot.py line 43), which is
library code outside this repository.  Per the spec's black-box resample
contract: an image already inside the bounding box is returned
unchanged (never upscaled); otherwise the image is scaled down,
preserving aspect ratio to within whole-pixel rounding, so that it fits
the box — the relatively taller side is pinned to the box and the other
axis is scaled by the same factor and rounded. -/
def thumbnailDims (w h bw bh : ℕ) : ℕ × ℕ :=
  if w ≤ bw ∧ h ≤ bh then (w, h)
  else if (w : ℚ) * bh ≤ (h : ℚ) * bw then
    (roundAspect ((bh : ℚ) * w / h), bh)
  else
    (bw, roundAspect ((bw : ℚ) * h / w))

/-- Output pixel dimensions of `resize_image` for a decodable source of
the given dimensions. -/
def resizeDims (w h : ℕ) : ℕ × ℕ :=
  thumbnailDims w h LABEL_WIDTH_PX LABEL_HEIGHT_PX

/-- Output-format selection of `resize_image` (bot.py line 55):
`'PNG' if img.mode == 'RGBA' or 'P' in img.mode else 'JPEG'`, applied
to the mode string of the resampled image.  Python's `'P' in mode` is
one-character substring containment, i.e. membership of the character
`P` among the mode's characters. -/
def selectFormat (mode : String) : String :=
  if mode = "RGBA" || mode.data.contains 'P' then "PNG" else "JPEG"

/-- Formalisation of the spec's words for claim C4: the image modes that
carry an alpha channel, in the decoding library's mode-naming scheme. -/
def hasAlphaChannel (mode : String) : Bool :=
  mode = "RGBA" || mode = "LA" || mode = "PA" || mode = "RGBa" || mode = "La"

/-- Formalisation of the spec's words for claim C4: the palette-indexed
image modes. -/
def isPaletteIndexed (mode : String) : Bool :=
  mode = "P" || mode = "PA"

/-! ## Print dispatcher (`print_image_cups`, bot.py lines 63-102)

The body is `try: with NamedTemporaryFile(delete=True) as f: ...
subprocess.run(..., check=True) ... except CalledProcessError ...
except Exception ...`.  Exceptions are modelled with an explicit result
sum, the temporary file's existence on disk with an explicit state
record, and the `with` statement as the acquire-run-release combinator
`withNamedTemporaryFile`, whose release runs whether the body returned
normally or raised — exactly the guarantee of Python's `with`. -/

/-- Exceptions that can escape the `with` block of `print_image_cups`. -/
inductive PyExn : Type
  | calledProcessError (returncode : ℕ) (stdout stderr : String)
  | other (msg : String)
deriving DecidableEq, Repr

/-- Normal return or raised exception. -/
inductive PyResult (α : Type) : Type
  | ok (val : α)
  | raised (e : PyExn)
deriving DecidableEq, Repr

/-- Behaviour of the external `lp` invocation: process ran and exited
with a status, or could not be executed at all. -/
inductive RunOutcome : Type
  | exited (code : ℕ) (stdout stderr : String)
  | execError (msg : String)
deriving DecidableEq, Repr

/-- On-disk state of the dispatcher's temporary file. -/
structure FsState : Type where
  tempFileExists : Bool
deriving DecidableEq, Repr

/-- `subprocess.run(lp_command, capture_output=True, text=True,
check=True)`: with `check=True` a nonzero exit status raises
`CalledProcessError` carrying both captured streams; an execution
failure raises some other exception. -/
def subprocessRun (outcome : RunOutcome) : PyResult (String × String) :=
  match outcome with
  | .exited 0 out err => .ok (out, err)
  | .exited (code + 1) out err => .raised (.calledProcessError (code + 1) out err)
  | .execError msg => .raised (.other msg)

/-- `with tempfile.NamedTemporaryFile(delete=True) as f:` — entering
creates the file on disk; leaving the block deletes it on every path,
whether the body returned normally or raised. -/
def withNamedTemporaryFile {α : Type} (body : FsState → PyResult α × FsState)
    (fs : FsState) : PyResult α × FsState :=
  let opened : FsState := { fs with tempFileExists := true }
  let r := body opened
  (r.1, { r.2 with tempFileExists := false })

/-- The `lp` command line built at bot.py lines 65-87 (the f-string
`media=Custom.{W}x{H}in` with the constants substituted). -/
def lpCommand (serverHost : Option String) (printerName : String) (copies : ℕ)
    (tempPath : String) : List String :=
  ["lp"] ++ (match serverHost with | some hst => ["-h", hst] | none => []) ++
    ["-d", printerName, "-n", toString copies,
     "-o", "media=Custom." ++ toString LABEL_WIDTH_INCHES ++ "x" ++
       toString LABEL_HEIGHT_INCHES ++ "in",
     "-o", "fit-to-page", tempPath]

/-- `print_image_cups` (bot.py lines 63-102): write the image to a
scoped temporary file, run `lp` synchronously, and translate the three
outcomes into a `(success, message)` pair — `(True, stdout)` on exit 0,
`(False, e.stderr)` on `CalledProcessError`, `(False, str(e))` on any
other exception.  Every branch returns; nothing propagates out. -/
def print_image_cups (outcome : RunOutcome) (fs : FsState) :
    (Bool × String) × FsState :=
  let r := withNamedTemporaryFile (fun fsIn => (subprocessRun outcome, fsIn)) fs
  match r.1 with
  | .ok (out, _) => ((true, out), r.2)
  | .raised (.calledProcessError _ _ err) => ((false, err), r.2)
  | .raised (.other msg) => ((false, msg), r.2)

/-! ## Handlers (`start` lines 122-132, `handle_image` lines 134-176)

Each handler is embedded as a function from its inputs to the ordered
list of observable effects it performs.  External results (image
decoding/resampling, the subprocess) are supplied through an
environment record. -/

/-- Observable effects of a handler invocation, in program order. -/
inductive Event : Type
  | logWarning
  | logError
  | logInfo
  | reply (msg : String)
  | replyHtml
  | downloadPhoto
  | normalize
  | spawn
deriving DecidableEq, Repr

/-- Process-wide configuration read at startup. -/
structure BotConfig : Type where
  allowedUserIds : List ℕ
  cupsPrinterName : Option String
deriving DecidableEq, Repr

/-- One inbound update: sender, whether a photo is attached, caption. -/
structure IncomingMessage : Type where
  userId : ℕ
  hasPhoto : Bool
  caption : Option String
deriving DecidableEq, Repr

/-- Results of the external operations during one `handle_image` run:
`resizeResult` is `some tag` when `resize_image` succeeds with that
format tag and `none` when it returns `(None, None)`; `printOutcome` is
the behaviour of the `lp` subprocess. -/
structure Env : Type where
  resizeResult : Option String
  printOutcome : RunOutcome
deriving DecidableEq, Repr

/-- `os.getenv` truthiness of `CUPS_PRINTER_NAME`: unset (`None`) and
the empty string are both falsy. -/
def printerConfigured : Option String → Bool
  | none => false
  | some s => !s.isEmpty

def rejectionText : String := "Sorry, you are not authorized to use this bot."

def configErrorText : String := "Printer is not configured. Please contact the administrator."

/-- The acknowledgment text with the resolved copy count (bot.py line
159), including the `'y' if copies == 1 else 'ies'` suffix. -/
def receivedText (copies : ℕ) : String :=
  "Received image. Resizing and preparing to print " ++ toString copies ++
    " cop" ++ (if copies = 1 then "y" else "ies") ++ "..."

/-- The `/start` handler (bot.py lines 122-132): authorization gate,
then a welcome reply. -/
def start (cfg : BotConfig) (uid : ℕ) : List Event :=
  if accessDenied cfg.allowedUserIds uid then
    [.logWarning, .reply rejectionText]
  else
    [.replyHtml]

/-- The image handler (bot.py lines 134-176): authorization gate, photo
check, printer-configuration check, then download, caption parsing,
acknowledgment, normalization, dispatch, and the outcome reply. -/
def handle_image (cfg : BotConfig) (msg : IncomingMessage) (env : Env)
    (fs : FsState) : List Event :=
  if accessDenied cfg.allowedUserIds msg.userId then
    [.logWarning, .reply rejectionText]
  else if !msg.hasPhoto then
    [.reply "Please send an image file."]
  else if !(printerConfigured cfg.cupsPrinterName) then
    [.logError, .reply configErrorText]
  else
    let copies := parse_copies msg.caption
    [.downloadPhoto, .reply (receivedText copies)] ++
      match env.resizeResult with
      | none => [.normalize, .reply "Failed to process the image."]
      | some _fmt =>
        let res := (print_image_cups env.printOutcome fs).1
        [.normalize, .spawn] ++
          (if res.1 then
            [.logInfo, .reply ("Sent to printer! CUPS message: " ++ res.2)]
          else
            [.logError, .reply ("Failed to send to printer. Error: " ++ res.2)])

/-! ## Theorems -/

/-- Claim C2: `parse_copies` is total over every caption input
(including absent and empty captions) and always returns an integer
greater than or equal to 1.  Totality and absence of exceptions are
witnessed by the embedding itself being a total Lean function over all
of `Option String`; this theorem adds the lower bound. -/
theorem parse_copies_ge_one (caption : Option String) : 1 ≤ parse_copies caption := by
  unfold parse_copies
  split
  · exact Nat.le_refl 1
  · split
    · exact Nat.le_refl 1
    · split <;> first | exact Nat.le_refl 1 | exact Nat.le_max_left 1 _

/-- Claim C8: the copy-count parser satisfies the spec's input/output
table: "x3" yields 3, "copies=2" yields 2, "COPIES = 5" yields 5, the
empty string yields 1, an absent caption yields 1, "x0" yields 1
(clamped), and "hello" yields 1 (no match). -/
theorem parse_copies_table :
    parse_copies (some "x3") = 3 ∧
    parse_copies (some "copies=2") = 2 ∧
    parse_copies (some "COPIES = 5") = 5 ∧
    parse_copies (some "") = 1 ∧
    parse_copies none = 1 ∧
    parse_copies (some "x0") = 1 ∧
    parse_copies (some "hello") = 1 := by
  decide

/-- Claim C1: the authorization check admits a sender exactly when the
allow-list is empty or contains the sender's identity; the same
condition guards both `start` and `handle_image`, and a denied sender
receives only the rejection reply — no validation, normalization or
dispatch stage runs. -/
theorem authorization_gate (l : List ℕ) (uid : ℕ) (printer : Option String)
    (msg : IncomingMessage) (env : Env) (fs : FsState) (hu : msg.userId = uid) :
    (accessDenied l uid = false ↔ (l = [] ∨ uid ∈ l)) ∧
    (accessDenied l uid = true →
      start ⟨l, printer⟩ uid = [.logWarning, .reply rejectionText] ∧
      handle_image ⟨l, printer⟩ msg env fs = [.logWarning, .reply rejectionText]) ∧
    (accessDenied l uid = false → start ⟨l, printer⟩ uid = [.replyHtml]) := by
  refine ⟨?_, fun hd => ⟨?_, ?_⟩, fun hd => ?_⟩
  · simp [accessDenied, List.isEmpty_iff]
    tauto
  · simp [start, hd]
  · simp [handle_image, hu, hd]
  · simp [start, hd]

/-- Witness for `authorization_gate` at a concrete denied sender. -/
theorem authorization_gate_witness :
    (⟨7, true, none⟩ : IncomingMessage).userId = 7 ∧
    accessDenied [5] 7 = true ∧
    start ⟨[5], some "zebra"⟩ 7 = [.logWarning, .reply rejectionText] ∧
    handle_image ⟨[5], some "zebra"⟩ ⟨7, true, none⟩ ⟨some "png", .exited 0 "ok" ""⟩ ⟨false⟩ =
      [.logWarning, .reply rejectionText] := by
  have h := authorization_gate [5] 7 (some "zebra") ⟨7, true, none⟩
    ⟨some "png", .exited 0 "ok" ""⟩ ⟨false⟩ rfl
  exact ⟨rfl, by decide, (h.2.1 (by decide)).1, (h.2.1 (by decide)).2⟩

/-- Claim C5: on every exit path of `print_image_cups` — zero exit,
nonzero exit, or any other exception during the attempt — the
temporary file no longer exists on disk when the call returns. -/
theorem temp_file_always_deleted (outcome : RunOutcome) (fs : FsState) :
    ((print_image_cups outcome fs).2).tempFileExists = false := by
  cases outcome with
  | exited code out err => cases code <;> rfl
  | execError msg => rfl

/-- Claim C6: `print_image_cups` returns success with captured stdout
on exit status zero, failure with captured stderr on any nonzero exit
status, and failure with the exception's message when the command
cannot be executed; being a total function of the run outcome, it never
raises. -/
theorem print_dispatch_outcomes (out err msg : String) (fs : FsState) :
    (print_image_cups (.exited 0 out err) fs).1 = (true, out) ∧
    (∀ code : ℕ, (print_image_cups (.exited (code + 1) out err) fs).1 = (false, err)) ∧
    (print_image_cups (.execError msg) fs).1 = (false, msg) :=
  ⟨rfl, fun _ => rfl, rfl⟩

/-- Claim C7: with no printer configured, `handle_image` never emits a
normalization step or spawns a subprocess, and when the sender is
authorized and a photo is present it replies exactly with the
configuration-error message and returns. -/
theorem no_printer_no_dispatch (cfg : BotConfig) (msg : IncomingMessage)
    (env : Env) (fs : FsState)
    (hp : printerConfigured cfg.cupsPrinterName = false) :
    (Event.normalize ∉ handle_image cfg msg env fs ∧
      Event.spawn ∉ handle_image cfg msg env fs) ∧
    (accessDenied cfg.allowedUserIds msg.userId = false → msg.hasPhoto = true →
      handle_image cfg msg env fs = [.logError, .reply configErrorText]) := by
  unfold handle_image
  cases hd : accessDenied cfg.allowedUserIds msg.userId with
  | true => simp [hd]
  | false =>
    cases hph : msg.hasPhoto with
    | false => simp [hph]
    | true => simp [hph, hp]

/-- Witness for `no_printer_no_dispatch` with an authorized sender, a
photo, and an unset printer name. -/
theorem no_printer_no_dispatch_witness :
    printerConfigured (BotConfig.mk [] none).cupsPrinterName = false ∧
    accessDenied [] 3 = false ∧
    handle_image ⟨[], none⟩ ⟨3, true, some "x2"⟩ ⟨some "png", .exited 0 "ok" ""⟩ ⟨false⟩ =
      [.logError, .reply configErrorText] := by
  have h := no_printer_no_dispatch ⟨[], none⟩ ⟨3, true, some "x2"⟩
    ⟨some "png", .exited 0 "ok" ""⟩ ⟨false⟩ (by decide)
  exact ⟨by decide, by decide, h.2 (by decide) rfl⟩

/-- Claim C9: the allow-list keeps exactly the all-digit comma-separated
fields of the configuration string, converted to integers; every other
field is silently dropped, and a configuration whose fields are all
invalid yields an empty allow-list, hence open access for every
sender. -/
theorem allowlist_parse (s : String) :
    (∀ x : ℕ, x ∈ parseAllowedUserIds s ↔
      ∃ f, f ∈ splitCommas s.data ∧ isDigitField f = true ∧ digitsToNat f = x) ∧
    ((∀ f ∈ splitCommas s.data, isDigitField f = false) →
      parseAllowedUserIds s = [] ∧
      ∀ uid : ℕ, accessDenied (parseAllowedUserIds s) uid = false) := by
  constructor
  · intro x
    simp only [parseAllowedUserIds, List.mem_map, List.mem_filter]
    tauto
  · intro hall
    have he : parseAllowedUserIds s = [] := by
      unfold parseAllowedUserIds
      have hf : (splitCommas s.data).filter isDigitField = [] := by
        rw [List.filter_eq_nil_iff]
        intro f hf
        simp [hall f hf]
      rw [hf]
      rfl
    exact ⟨he, fun uid => by rw [he]; rfl⟩

/-- Witness for `allowlist_parse` on a configuration string whose three
fields (a username, a negative number, a digit field with stray spaces)
are all invalid. -/
theorem allowlist_parse_witness :
    (∀ f ∈ splitCommas ("alice,-3, 7 ").data, isDigitField f = false) ∧
    parseAllowedUserIds "alice,-3, 7 " = [] ∧
    accessDenied (parseAllowedUserIds "alice,-3, 7 ") 42 = false := by
  have h := (allowlist_parse "alice,-3, 7 ").2 (by decide)
  exact ⟨by decide, h.1, h.2 42⟩

/-- Claim C4 counterexample: the mode "LA" (grayscale with alpha)
carries an alpha channel, yet `resize_image`'s format selection encodes
it as JPEG, not PNG — the code tests `mode == 'RGBA' or 'P' in mode`,
not the presence of an alpha channel. -/
theorem format_selection_counterexample :
    hasAlphaChannel "LA" = true ∧ isPaletteIndexed "LA" = false ∧
    selectFormat "LA" = "JPEG" ∧ selectFormat "LA" ≠ "PNG" := by
  decide

/-- Claim C4 (amended): the output format is PNG exactly when the
resampled image's mode equals "RGBA" or contains the letter P (hence
palette modes "P" and "PA" give PNG and opaque "RGB" gives JPEG), but an
alpha-bearing mode of another shape, such as "LA", gives JPEG. -/
theorem format_selection (mode : String) :
    (selectFormat mode = "PNG" ↔ (mode = "RGBA" ∨ mode.data.contains 'P' = true)) ∧
    selectFormat "RGB" = "JPEG" ∧ selectFormat "RGBA" = "PNG" ∧
    selectFormat "P" = "PNG" ∧ selectFormat "PA" = "PNG" ∧
    selectFormat "LA" = "JPEG" := by
  refine ⟨?_, by decide, by decide, by decide, by decide, by decide⟩
  unfold selectFormat
  split
  next h =>
    simp only [Bool.or_eq_true, decide_eq_true_eq] at h
    simpa using h
  next h =>
    simp only [Bool.or_eq_true, decide_eq_true_eq] at h
    constructor
    · intro habs
      exact absurd habs (by decide)
    · intro hc
      exact absurd hc h

/-- Claim C10 counterexample: in the caption "copies=2 x9" the first
occurrence of the letter x immediately followed by digits captures "9",
yet `parse_copies` returns 2, because the leftmost match of the whole
alternation is the earlier `copies=2`. -/
theorem parse_copies_first_x_counterexample :
    firstXDigits (("copies=2 x9").data.map Char.toLower) = some ['9'] ∧
    max 1 (digitsToNat ['9']) = 9 ∧
    parse_copies (some "copies=2 x9") = 2 ∧ (2 : ℕ) ≠ 9 := by
  decide

/-- When the `copies=` alternative matches nowhere, the regex scan of
`parse_copies` degenerates to finding the first `x` followed by
digits. -/
lemma searchFrom_eq_firstXDigits (l : List Char) : ∀ prev : Option Char,
    hasCopiesAnywhere prev l = false → searchFrom prev l = firstXDigits l := by
  induction l with
  | nil => intro prev _; rfl
  | cons c rest ih =>
    intro prev h
    unfold hasCopiesAnywhere at h
    rw [Bool.or_eq_false_iff] at h
    obtain ⟨h1, h2⟩ := h
    unfold searchFrom firstXDigits tryMatchAt
    cases hx : matchXAt (c :: rest) with
    | some ds => rfl
    | none =>
      have hmc : (if atWordBoundary prev then matchCopiesAt (c :: rest) else none) = none := by
        cases hb : atWordBoundary prev with
        | false => simp
        | true =>
          rw [hb] at h1
          simp only [Bool.true_and] at h1
          simpa using h1
      simp only [hmc]
      exact ih (some c) h2

/-- Claim C10 (amended): the multiplier pattern has no word boundary
before the letter x, so an x embedded in a longer word matches; but the
copy count comes from the leftmost match of the whole alternation, so
the first x-followed-by-digits determines the count (clamped to at
least 1) only when the `copies=` pattern matches nowhere in the
caption — an earlier `copies=` occurrence takes precedence. -/
theorem parse_copies_first_x (s : String) (ds : List Char)
    (hnoc : hasCopiesAnywhere none (s.data.map Char.toLower) = false)
    (hx : firstXDigits (s.data.map Char.toLower) = some ds) :
    parse_copies (some s) = max 1 (digitsToNat ds) := by
  have hne : s.isEmpty = false := by
    cases hs : s.isEmpty
    · rfl
    · rw [(String.isEmpty_iff s).mp hs] at hx
      rw [show ("" : String).data = [] from rfl, List.map_nil] at hx
      rw [show firstXDigits [] = none from rfl] at hx
      exact Option.noConfusion hx
  simp only [parse_copies, hne, Bool.false_eq_true, if_false,
    searchFrom_eq_firstXDigits _ none hnoc, hx]

/-- Witness for `parse_copies_first_x`: the caption "box3" has an x
embedded inside a word and no `copies=` occurrence, and yields 3. -/
theorem parse_copies_first_x_witness :
    hasCopiesAnywhere none (("box3").data.map Char.toLower) = false ∧
    firstXDigits (("box3").data.map Char.toLower) = some ['3'] ∧
    parse_copies (some "box3") = max 1 (digitsToNat ['3']) ∧
    max 1 (digitsToNat ['3']) = 3 :=
  ⟨by decide, by decide, parse_copies_first_x "box3" ['3'] (by decide) (by decide), by decide⟩

/-- A rounded axis stays within any whole-pixel bound at least 1 that
the exact value respects. -/
lemma roundAspect_le (q : ℚ) (m : ℕ) (h1 : 1 ≤ m) (hq : q ≤ (m : ℚ)) :
    roundAspect q ≤ m := by
  have hfl : (⌊q⌋).toNat ≤ m := by
    rw [Int.toNat_le]
    calc ⌊q⌋ ≤ ⌊(m : ℚ)⌋ := Int.floor_mono hq
      _ = (m : ℤ) := Int.floor_natCast m
  have hcl : (⌈q⌉).toNat ≤ m := by
    rw [Int.toNat_le]
    exact Int.ceil_le.mpr (by exact_mod_cast hq)
  unfold roundAspect
  split
  · exact max_le h1 hfl
  · exact max_le h1 hcl

/-- A rounded axis is within one pixel of the exact value. -/
lemma roundAspect_close (q : ℚ) (hq : 0 ≤ q) :
    |(roundAspect q : ℚ) - q| ≤ 1 := by
  have h0 : 0 ≤ ⌊q⌋ := Int.floor_nonneg.mpr hq
  have hfl : (⌊q⌋ : ℚ) ≤ q := Int.floor_le q
  have hfl2 : q < (⌊q⌋ : ℚ) + 1 := Int.lt_floor_add_one q
  have hcl : q ≤ (⌈q⌉ : ℚ) := Int.le_ceil q
  have hcl2 : (⌈q⌉ : ℚ) < q + 1 := Int.ceil_lt_add_one q
  have htn : (((⌊q⌋).toNat : ℕ) : ℚ) = (⌊q⌋ : ℚ) := by
    exact_mod_cast Int.toNat_of_nonneg h0
  unfold roundAspect
  split
  · rcases Nat.eq_zero_or_pos (⌊q⌋).toNat with hz | hp
    · have hfz : (⌊q⌋ : ℚ) = 0 := by rw [← htn, hz]; norm_num
      have hq1 : q < 1 := by linarith
      rw [hz, show max 1 0 = 1 from rfl, abs_le]
      push_cast
      constructor <;> linarith
    · rw [max_eq_right hp, abs_le]
      constructor <;> rw [htn] <;> linarith
  · next hhalf =>
    push_neg at hhalf
    have hf0 : (0 : ℚ) ≤ (⌊q⌋ : ℚ) := by exact_mod_cast h0
    have hcp : 0 < ⌈q⌉ := Int.ceil_pos.mpr (by linarith)
    have hcp' : 1 ≤ (⌈q⌉).toNat := by omega
    have htc : (((⌈q⌉).toNat : ℕ) : ℚ) = (⌈q⌉ : ℚ) := by
      exact_mod_cast Int.toNat_of_nonneg (le_of_lt hcp)
    rw [max_eq_right hcp', abs_le]
    constructor <;> rw [htc] <;> linarith

/-- Claim C3: for every decodable source image (positive dimensions),
the normalized output fits in the 1200x1800 bounding box, keeps exactly
the input dimensions whenever the input already fits (no upscaling),
and otherwise preserves the input aspect ratio to within one pixel of
rounding on the scaled axis. -/
theorem resize_dims_spec (w h : ℕ) (hw : 1 ≤ w) (hh : 1 ≤ h) :
    (resizeDims w h).1 ≤ 1200 ∧ (resizeDims w h).2 ≤ 1800 ∧
    (w ≤ 1200 ∧ h ≤ 1800 → resizeDims w h = (w, h)) ∧
    (resizeDims w h = (w, h) ∨
      ((resizeDims w h).2 = 1800 ∧
        |((resizeDims w h).1 : ℚ) - 1800 * w / h| ≤ 1) ∨
      ((resizeDims w h).1 = 1200 ∧
        |((resizeDims w h).2 : ℚ) - 1200 * h / w| ≤ 1)) := by
  have hwq : (0 : ℚ) < w := by exact_mod_cast Nat.lt_of_lt_of_le Nat.zero_lt_one hw
  have hhq : (0 : ℚ) < h := by exact_mod_cast Nat.lt_of_lt_of_le Nat.zero_lt_one hh
  rw [show resizeDims w h = thumbnailDims w h 1200 1800 from rfl]
  unfold thumbnailDims
  simp only [Nat.cast_ofNat]
  split_ifs with h1 h2
  · exact ⟨h1.1, h1.2, fun _ => rfl, Or.inl rfl⟩
  · refine ⟨?_, le_refl _, fun hc => absurd hc h1, Or.inr (Or.inl ⟨rfl, ?_⟩)⟩
    · refine roundAspect_le _ 1200 (by norm_num) ?_
      rw [div_le_iff₀ hhq]
      push_cast
      linarith
    · exact roundAspect_close _ (by positivity)
  · push_neg at h2
    refine ⟨le_refl _, ?_, fun hc => absurd hc h1, Or.inr (Or.inr ⟨rfl, ?_⟩)⟩
    · refine roundAspect_le _ 1800 (by norm_num) ?_
      rw [div_le_iff₀ hwq]
      push_cast
      linarith
    · exact roundAspect_close _ (by positivity)

/-- Witness for `resize_dims_spec` at a 2400x2400 source, which is
scaled to 1200x1200. -/
theorem resize_dims_spec_witness :
    (1 ≤ 2400 ∧ 1 ≤ 2400) ∧
    ((resizeDims 2400 2400).1 ≤ 1200 ∧ (resizeDims 2400 2400).2 ≤ 1800 ∧
      ((2400 : ℕ) ≤ 1200 ∧ (2400 : ℕ) ≤ 1800 → resizeDims 2400 2400 = (2400, 2400)) ∧
      (resizeDims 2400 2400 = (2400, 2400) ∨
        ((resizeDims 2400 2400).2 = 1800 ∧
          |((resizeDims 2400 2400).1 : ℚ) - 1800 * ((2400 : ℕ) : ℚ) / ((2400 : ℕ) : ℚ)| ≤ 1) ∨
        ((resizeDims 2400 2400).1 = 1200 ∧
          |((resizeDims 2400 2400).2 : ℚ) - 1200 * ((2400 : ℕ) : ℚ) / ((2400 : ℕ) : ℚ)| ≤ 1))) :=
  ⟨⟨by decide, by decide⟩, resize_dims_spec 2400 2400 (by decide) (by decide)⟩
